import Mathlib

/- Verification of the SportiQue XRPL core: consent credentials
   (consent_manager.py), the hash-locked escrow lifecycle
   (escrow_payment.py), the audit chain (audit_trail.py) and the platform
   orchestrator (sportique_platform.py), shallowly embedded in Lean.

   Modelling conventions:
   * timestamps (datetime.utcnow) are natural numbers; every operation that
     reads the clock takes the current time `now` as an argument;
   * the SHA-256 hex digest is passed in as a function `sha : String → String`;
     cryptographic facts about it (injectivity) appear as explicit hypotheses;
   * RSA-PSS signing is idealised as a perfect signature scheme: a signature
     pairs the key with the signed digest and verification succeeds exactly
     on a signature of the same digest under the same key pair;
   * fresh random identifiers (secrets.token_hex, uuid.uuid4) are arguments;
   * Python dicts are association lists with dict update semantics;
   * the Python float amounts are modelled as integers. -/

namespace Sportique

/-- Python dict read `d.get(k)` (also `k in d`) over an association list. -/
def dictLookup {α : Type} (d : List (String × α)) (k : String) : Option α :=
  (d.find? (fun kv => kv.1 == k)).map (fun kv => kv.2)

/-- Python dict write `d[k] = v`: replace the existing binding in place if the
key is present, otherwise append a new binding. -/
def dictInsert {α : Type} : List (String × α) → String → α → List (String × α)
  | [], k, v => [(k, v)]
  | kv :: tl, k, v => if kv.1 == k then (k, v) :: tl else kv :: dictInsert tl k v

theorem dictLookup_insert_self {α : Type} (d : List (String × α)) (k : String) (v : α) :
    dictLookup (dictInsert d k v) k = some v := by
  induction d with
  | nil => simp [dictInsert, dictLookup]
  | cons hd tl ih =>
    by_cases h : hd.1 = k
    · simp [dictInsert, dictLookup, h]
    · simp only [dictInsert, beq_iff_eq, h, if_false]
      simpa [dictLookup, List.find?_cons, h] using ih

theorem dictLookup_insert_other {α : Type} (d : List (String × α)) (k k' : String) (v : α)
    (h : k' ≠ k) : dictLookup (dictInsert d k v) k' = dictLookup d k' := by
  have hkk : (k == k') = false := beq_eq_false_iff_ne.mpr (Ne.symm h)
  induction d with
  | nil => simp [dictInsert, dictLookup, hkk]
  | cons hd tl ih =>
    by_cases hk : hd.1 = k
    · simp [dictInsert, dictLookup, hk, List.find?_cons, hkk]
    · simp only [dictInsert, beq_iff_eq, hk, if_false]
      by_cases hk' : hd.1 = k'
      · simp [dictLookup, List.find?_cons, hk']
      · simpa [dictLookup, List.find?_cons, hk'] using ih

/-- Rendering of `datetime.isoformat() + "Z"`, with the instant itself kept
abstract as a number (decimal rendering stands in for the ISO notation). -/
def isoZ (t : Nat) : String := toString t ++ "Z"

/-- Left brace as string data (JSON rendering). -/
def lbr : String := "\x7b"

/-- Right brace as string data (JSON rendering). -/
def rbr : String := "\x7d"

/-- JSON string literal (field values in this development carry no characters
that need escaping). -/
def jstr (s : String) : String := "\"" ++ s ++ "\""

/-- Uppercase hex digit of a nibble, as in `bytes.hex().upper()`. -/
def hexDigit (b : UInt8) : Char :=
  if b < 10 then Char.ofNat (48 + b.toNat) else Char.ofNat (55 + b.toNat)

/-- Model of `_hex_encode`: `text.encode('utf-8').hex().upper()`. -/
def hexEncode (s : String) : String :=
  String.mk (s.toUTF8.toList.foldr (fun b acc => hexDigit (b / 16) :: hexDigit (b % 16) :: acc) [])

/- ===================== escrow_payment.py ===================== -/

/-- Enum `EscrowStatus` of escrow_payment.py. -/
inductive EscrowStatus where
  | created
  | locked
  | fulfilled
  | expired
  | cancelled
deriving DecidableEq, Repr

/-- String `.value` of the Python enum member. -/
def EscrowStatus.value : EscrowStatus → String
  | .created => "created"
  | .locked => "locked"
  | .fulfilled => "fulfilled"
  | .expired => "expired"
  | .cancelled => "cancelled"

/-- Dataclass `DataDeliveryCondition`. -/
structure DataDeliveryCondition where
  fhir_bundle_hash : String
  preimage : String
  preimage_hash : String
  delivery_deadline : Nat
deriving DecidableEq, Repr

/-- Dataclass `EscrowContract`. -/
structure EscrowContract where
  escrow_id : String
  payer : String
  payee : String
  amount : Int
  consent_id : String
  data_condition : DataDeliveryCondition
  created_at : Nat
  expires_at : Nat
  status : EscrowStatus := .created
  xrpl_sequence : Option Nat := none
  fulfillment_tx : Option String := none
deriving DecidableEq, Repr

/-- One entry of `escrow_history` appended by `_log_escrow_action`. -/
structure EscrowLogEntry where
  timestamp : String
  action : String
  escrowId : String
  payer : String
  payee : String
  amount : Int
deriving DecidableEq, Repr

/-- State of class `XRPLEscrowManager` (the network URL fields are constants
derived from `testnet` and are read by no verified operation). -/
structure XRPLEscrowManager where
  testnet : Bool := true
  active_escrows : List (String × EscrowContract) := []
  escrow_history : List EscrowLogEntry := []
deriving DecidableEq, Repr

/-- Method `_log_escrow_action`. -/
def log_escrow_action (m : XRPLEscrowManager) (now : Nat) (action escrow_id payer payee : String)
    (amount : Int) : XRPLEscrowManager :=
  { m with escrow_history := m.escrow_history ++
      [{ timestamp := isoZ now, action := action, escrowId := escrow_id,
         payer := payer, payee := payee, amount := amount }] }

/-- Memo entry of an XRPL transaction envelope. -/
structure XrplMemo where
  MemoType : String
  MemoData : String
deriving DecidableEq, Repr

/-- Return value of `get_xrpl_memo_data` in the found case (`none` models the
empty dict returned for an unknown escrow id). -/
structure EscrowMemoData where
  EscrowID : String
  ConsentID : String
  DataHash : String
  Amount : String
  Purpose : String
deriving DecidableEq, Repr

/-- Body of `get_xrpl_memo_data` for one stored contract. -/
def escrowMemoView (e : EscrowContract) : EscrowMemoData :=
  { EscrowID := e.escrow_id
    ConsentID := e.consent_id
    DataHash := e.data_condition.fhir_bundle_hash.take 32
    Amount := toString e.amount
    Purpose := "HealthDataPayment" }

/-- Method `get_xrpl_memo_data`. -/
def get_xrpl_memo_data (m : XRPLEscrowManager) (escrow_id : String) : Option EscrowMemoData :=
  (dictLookup m.active_escrows escrow_id).map escrowMemoView

/-- `json.dumps` (default separators, insertion order) of the memo dict. -/
def renderMemoJson : Option EscrowMemoData → String
  | none => lbr ++ rbr
  | some d => lbr ++ jstr "EscrowID" ++ ": " ++ jstr d.EscrowID ++ ", " ++
      jstr "ConsentID" ++ ": " ++ jstr d.ConsentID ++ ", " ++
      jstr "DataHash" ++ ": " ++ jstr d.DataHash ++ ", " ++
      jstr "Amount" ++ ": " ++ jstr d.Amount ++ ", " ++
      jstr "Purpose" ++ ": " ++ jstr d.Purpose ++ rbr

/-- Return value of `get_escrow_status` in the found case. -/
structure EscrowStatusView where
  escrowId : String
  status : String
  payer : String
  payee : String
  amount : Int
  consentId : String
  createdAt : String
  expiresAt : String
  dataDeliveryDeadline : String
  xrplSequence : Option Nat
  fulfillmentTx : Option String
deriving DecidableEq, Repr

/-- Body of `get_escrow_status` for one stored contract. -/
def escrowStatusView (e : EscrowContract) : EscrowStatusView :=
  { escrowId := e.escrow_id
    status := e.status.value
    payer := e.payer
    payee := e.payee
    amount := e.amount
    consentId := e.consent_id
    createdAt := isoZ e.created_at
    expiresAt := isoZ e.expires_at
    dataDeliveryDeadline := isoZ e.data_condition.delivery_deadline
    xrplSequence := e.xrpl_sequence
    fulfillmentTx := e.fulfillment_tx }

/-- Method `get_escrow_status`. -/
def get_escrow_status (m : XRPLEscrowManager) (escrow_id : String) : Option EscrowStatusView :=
  (dictLookup m.active_escrows escrow_id).map escrowStatusView

/-- Ripple epoch offset constant (2000-01-01 UTC). -/
def rippleEpochOffset : Int := 946684800

/-- Envelope built by `_build_escrow_create_transaction`. -/
structure EscrowCreateTx where
  TransactionType : String
  Account : String
  Destination : String
  Amount : String
  FinishAfter : Int
  Condition : String
  Memos : List XrplMemo
deriving DecidableEq, Repr

/-- Method `_build_escrow_create_transaction`; note that the source reads the
memo dict through `get_xrpl_memo_data` on the manager as it is at build time. -/
def build_escrow_create_transaction (m : XRPLEscrowManager) (escrow : EscrowContract) :
    EscrowCreateTx :=
  { TransactionType := "EscrowCreate"
    Account := escrow.payer
    Destination := escrow.payee
    Amount := toString (escrow.amount * 1000000)
    FinishAfter := (escrow.expires_at : Int) - rippleEpochOffset
    Condition := escrow.data_condition.preimage_hash
    Memos := [{ MemoType := hexEncode "SportiQueEscrow",
                MemoData := hexEncode (renderMemoJson (get_xrpl_memo_data m escrow.escrow_id)) }] }

/-- Envelope built by `_build_escrow_finish_transaction`. -/
structure EscrowFinishTx where
  TransactionType : String
  Account : String
  Owner : String
  OfferSequence : Option Nat
  Fulfillment : String
  Memos : List XrplMemo
deriving DecidableEq, Repr

/-- Method `_build_escrow_finish_transaction`. -/
def build_escrow_finish_transaction (escrow : EscrowContract) (preimage : String) (now : Nat) :
    EscrowFinishTx :=
  let memo_json := lbr ++ jstr "EscrowID" ++ ": " ++ jstr escrow.escrow_id ++
    ", " ++ jstr "ConsentID" ++ ": " ++ jstr escrow.consent_id ++
    ", " ++ jstr "CompletedAt" ++ ": " ++ jstr (isoZ now) ++ rbr
  { TransactionType := "EscrowFinish"
    Account := escrow.payee
    Owner := escrow.payer
    OfferSequence := escrow.xrpl_sequence
    Fulfillment := preimage.toUpper
    Memos := [{ MemoType := hexEncode "SportiQueComplete", MemoData := hexEncode memo_json }] }

/-- Envelope built by `_build_escrow_cancel_transaction`. -/
structure EscrowCancelTx where
  TransactionType : String
  Account : String
  Owner : String
  OfferSequence : Option Nat
  Memos : List XrplMemo
deriving DecidableEq, Repr

/-- Method `_build_escrow_cancel_transaction`. -/
def build_escrow_cancel_transaction (escrow : EscrowContract) (now : Nat) : EscrowCancelTx :=
  let memo_json := lbr ++ jstr "EscrowID" ++ ": " ++ jstr escrow.escrow_id ++
    ", " ++ jstr "CancelledAt" ++ ": " ++ jstr (isoZ now) ++
    ", " ++ jstr "Reason" ++ ": " ++ jstr "Expired" ++ rbr
  { TransactionType := "EscrowCancel"
    Account := escrow.payer
    Owner := escrow.payer
    OfferSequence := escrow.xrpl_sequence
    Memos := [{ MemoType := hexEncode "SportiQueCancel", MemoData := hexEncode memo_json }] }

/-- Method `create_escrow_offer`; `id_hex` and `preimage` stand for the fresh
random values of `_generate_id` and `_generate_preimage`. -/
def create_escrow_offer (sha : String → String) (m : XRPLEscrowManager) (now : Nat)
    (payer_address payee_address : String) (amount : Int)
    (consent_id fhir_bundle_hash : String) (delivery_hours : Nat)
    (id_hex preimage : String) :
    EscrowContract × EscrowCreateTx × XRPLEscrowManager :=
  let escrow_id := "escrow_" ++ id_hex
  let preimage_hash := (sha preimage).toUpper
  let delivery_deadline := now + delivery_hours * 3600
  let data_condition : DataDeliveryCondition :=
    { fhir_bundle_hash := fhir_bundle_hash, preimage := preimage,
      preimage_hash := preimage_hash, delivery_deadline := delivery_deadline }
  let escrow_contract : EscrowContract :=
    { escrow_id := escrow_id, payer := payer_address, payee := payee_address,
      amount := amount, consent_id := consent_id, data_condition := data_condition,
      created_at := now, expires_at := delivery_deadline + 24 * 3600 }
  let xrpl_transaction := build_escrow_create_transaction m escrow_contract
  let m1 := { m with active_escrows := dictInsert m.active_escrows escrow_id escrow_contract }
  let m2 := log_escrow_action m1 now "CREATED" escrow_id payer_address payee_address amount
  (escrow_contract, xrpl_transaction, m2)

/-- Method `lock_escrow_funds`. -/
def lock_escrow_funds (m : XRPLEscrowManager) (now : Nat) (escrow_id : String)
    (xrpl_sequence : Nat) : Bool × XRPLEscrowManager :=
  match dictLookup m.active_escrows escrow_id with
  | none => (false, m)
  | some escrow =>
    let escrow' := { escrow with status := .locked, xrpl_sequence := some xrpl_sequence }
    let m1 := { m with active_escrows := dictInsert m.active_escrows escrow_id escrow' }
    (true, log_escrow_action m1 now "LOCKED" escrow_id escrow.payer escrow.payee escrow.amount)

/-- Method `fulfill_escrow`. -/
def fulfill_escrow (sha : String → String) (m : XRPLEscrowManager) (now : Nat)
    (escrow_id fhir_bundle_hash preimage : String) :
    (Bool × Option EscrowFinishTx) × XRPLEscrowManager :=
  match dictLookup m.active_escrows escrow_id with
  | none => ((false, none), m)
  | some escrow =>
    if escrow.status ≠ EscrowStatus.locked then ((false, none), m)
    else if now > escrow.expires_at then
      ((false, none),
        { m with active_escrows :=
            dictInsert m.active_escrows escrow_id { escrow with status := .expired } })
    else if fhir_bundle_hash ≠ escrow.data_condition.fhir_bundle_hash then ((false, none), m)
    else if (sha preimage).toUpper ≠ escrow.data_condition.preimage_hash then ((false, none), m)
    else
      let finish_transaction := build_escrow_finish_transaction escrow preimage now
      let m1 := { m with
        active_escrows := dictInsert m.active_escrows escrow_id
          { escrow with status := .fulfilled } }
      let m2 := log_escrow_action m1 now "FULFILLED" escrow_id escrow.payer escrow.payee
          escrow.amount
      ((true, some finish_transaction), m2)

/-- Method `cancel_escrow`. -/
def cancel_escrow (m : XRPLEscrowManager) (now : Nat) (escrow_id : String) :
    (Bool × Option EscrowCancelTx) × XRPLEscrowManager :=
  match dictLookup m.active_escrows escrow_id with
  | none => ((false, none), m)
  | some escrow =>
    if now ≤ escrow.expires_at then ((false, none), m)
    else
      let cancel_transaction := build_escrow_cancel_transaction escrow now
      let m1 := { m with
        active_escrows := dictInsert m.active_escrows escrow_id
          { escrow with status := .expired } }
      let m2 := log_escrow_action m1 now "CANCELLED" escrow_id escrow.payer escrow.payee
          escrow.amount
      ((true, some cancel_transaction), m2)

/- ===================== escrow fixtures and claims ===================== -/

/-- Sample digest function for concrete witnesses (any injective stand-in for
the SHA-256 hex digest works, because the code only compares digests). -/
def sha0 : String → String := id

/-- Sample delivery condition (witness data). -/
def condW : DataDeliveryCondition :=
  { fhir_bundle_hash := "BH", preimage := "sec", preimage_hash := ("sec" : String).toUpper,
    delivery_deadline := 50 }

/-- Sample locked escrow (witness data). -/
def escrowW : EscrowContract :=
  { escrow_id := "escrow_w", payer := "P", payee := "Q", amount := 50, consent_id := "c1",
    data_condition := condW, created_at := 0, expires_at := 100,
    status := .locked, xrpl_sequence := some 7, fulfillment_tx := none }

/-- Sample manager holding `escrowW` (witness data). -/
def escrowMgrW : XRPLEscrowManager :=
  { testnet := true, active_escrows := [("escrow_w", escrowW)], escrow_history := [] }

/-- Sample escrow already FULFILLED whose expiry has passed at time 101. -/
def escrowF : EscrowContract :=
  { escrow_id := "escrow_f", payer := "P", payee := "Q", amount := 50, consent_id := "c2",
    data_condition := condW, created_at := 0, expires_at := 100,
    status := .fulfilled, xrpl_sequence := some 7, fulfillment_tx := none }

/-- Sample manager holding the fulfilled escrow `escrowF`. -/
def escrowMgrF : XRPLEscrowManager :=
  { testnet := true, active_escrows := [("escrow_f", escrowF)], escrow_history := [] }

/-- Empty escrow manager. -/
def emptyEscrowMgr : XRPLEscrowManager :=
  { testnet := true, active_escrows := [], escrow_history := [] }

/-- Contract state with only the hash-lock preimage replaced. -/
def setPreimage (e : EscrowContract) (p : String) : EscrowContract :=
  { e with data_condition := { e.data_condition with preimage := p } }

/-- C3: `fulfill_escrow` succeeds iff the escrow is LOCKED, the time is not past
expiry, the supplied content digest matches the bound one and the digest of the
revealed secret matches the stored commitment; a mismatch of either digest with
the escrow LOCKED and unexpired fails and leaves the state unchanged; a LOCKED
escrow past expiry fails and is auto-transitioned to EXPIRED. -/
theorem c3_fulfill_escrow_correct (sha : String → String) (m : XRPLEscrowManager) (now : Nat)
    (escrow_id fhir_bundle_hash preimage : String) (e : EscrowContract)
    (he : dictLookup m.active_escrows escrow_id = some e) :
    ((fulfill_escrow sha m now escrow_id fhir_bundle_hash preimage).1.1 = true ↔
      e.status = EscrowStatus.locked ∧ now ≤ e.expires_at ∧
        fhir_bundle_hash = e.data_condition.fhir_bundle_hash ∧
        (sha preimage).toUpper = e.data_condition.preimage_hash) ∧
    (e.status = EscrowStatus.locked → now ≤ e.expires_at →
      ¬(fhir_bundle_hash = e.data_condition.fhir_bundle_hash ∧
        (sha preimage).toUpper = e.data_condition.preimage_hash) →
      (fulfill_escrow sha m now escrow_id fhir_bundle_hash preimage).1.1 = false ∧
      (fulfill_escrow sha m now escrow_id fhir_bundle_hash preimage).2 = m) ∧
    (e.status = EscrowStatus.locked → now > e.expires_at →
      (fulfill_escrow sha m now escrow_id fhir_bundle_hash preimage).1.1 = false ∧
      dictLookup (fulfill_escrow sha m now escrow_id fhir_bundle_hash preimage).2.active_escrows
        escrow_id = some { e with status := EscrowStatus.expired }) := by
  simp only [fulfill_escrow, he]
  split_ifs with h1 h2 h3 h4 <;> simp_all [dictLookup_insert_self]

/-- Witness for C3 at a concrete locked, unexpired escrow with matching digests. -/
theorem c3_witness :
    dictLookup escrowMgrW.active_escrows "escrow_w" = some escrowW ∧
    (fulfill_escrow sha0 escrowMgrW 5 "escrow_w" "BH" "sec").1.1 = true :=
  ⟨rfl,
    ((c3_fulfill_escrow_correct sha0 escrowMgrW 5 "escrow_w" "BH" "sec" escrowW rfl).1).mpr
      ⟨rfl, by decide, rfl, rfl⟩⟩

/-- C2 counterexample: `cancel_escrow` on an escrow already FULFILLED whose
expiry has passed reports success and overwrites the stored status with
EXPIRED, where the claim demands failure and an unchanged record. -/
theorem c2_counterexample :
    (cancel_escrow escrowMgrF 101 "escrow_f").1.1 = true ∧
    dictLookup (cancel_escrow escrowMgrF 101 "escrow_f").2.active_escrows "escrow_f" =
      some { escrowF with status := EscrowStatus.expired } := by
  exact ⟨rfl, rfl⟩

/-- C2 amended: `cancel_escrow` on a stored escrow succeeds exactly when the
current time is past the expiry, with no check of terminal states: on success
the stored status is overwritten with EXPIRED (even if it was FULFILLED), and
before expiry the call fails and leaves the manager unchanged. -/
theorem c2_cancel_amended (m : XRPLEscrowManager) (now : Nat) (escrow_id : String)
    (e : EscrowContract) (he : dictLookup m.active_escrows escrow_id = some e) :
    ((cancel_escrow m now escrow_id).1.1 = true ↔ now > e.expires_at) ∧
    (now ≤ e.expires_at → (cancel_escrow m now escrow_id).2 = m) ∧
    (now > e.expires_at →
      dictLookup (cancel_escrow m now escrow_id).2.active_escrows escrow_id =
        some { e with status := EscrowStatus.expired }) := by
  simp only [cancel_escrow, he]
  split_ifs with h1 <;> simp_all [log_escrow_action, dictLookup_insert_self]

/-- Witness for C2 (amended) at a concrete expired escrow. -/
theorem c2_witness :
    dictLookup escrowMgrW.active_escrows "escrow_w" = some escrowW ∧
    ((cancel_escrow escrowMgrW 101 "escrow_w").1.1 = true ↔ 101 > escrowW.expires_at) :=
  ⟨rfl, (c2_cancel_amended escrowMgrW 101 "escrow_w" escrowW rfl).1⟩

/-- C4 counterexample: `lock_escrow_funds` on an escrow already FULFILLED
reports success and rewrites the status to LOCKED with a new sequence, where
the claim demands a failing no-op for every non-CREATED state. -/
theorem c4_counterexample :
    (lock_escrow_funds escrowMgrF 5 "escrow_f" 99).1 = true ∧
    dictLookup (lock_escrow_funds escrowMgrF 5 "escrow_f" 99).2.active_escrows "escrow_f" =
      some { escrowF with status := EscrowStatus.locked, xrpl_sequence := some 99 } := by
  exact ⟨rfl, rfl⟩

/-- C4 amended: `lock_escrow_funds` succeeds exactly when the escrow id is
registered, and then unconditionally sets status LOCKED and stores the sequence
reference, from any current state; only an unknown id is a failing no-op. -/
theorem c4_lock_amended (m : XRPLEscrowManager) (now : Nat) (escrow_id : String) (seq : Nat) :
    ((lock_escrow_funds m now escrow_id seq).1 = true ↔
      ∃ e, dictLookup m.active_escrows escrow_id = some e) ∧
    (dictLookup m.active_escrows escrow_id = none →
      (lock_escrow_funds m now escrow_id seq).2 = m) ∧
    (∀ e, dictLookup m.active_escrows escrow_id = some e →
      dictLookup (lock_escrow_funds m now escrow_id seq).2.active_escrows escrow_id =
        some { e with status := EscrowStatus.locked, xrpl_sequence := some seq }) := by
  cases he : dictLookup m.active_escrows escrow_id <;>
    simp_all [lock_escrow_funds, log_escrow_action, dictLookup_insert_self]

/-- Witness for C4 (amended) at a concrete registered escrow. -/
theorem c4_witness :
    dictLookup escrowMgrW.active_escrows "escrow_w" = some escrowW ∧
    dictLookup (lock_escrow_funds escrowMgrW 5 "escrow_w" 42).2.active_escrows "escrow_w" =
      some { escrowW with status := EscrowStatus.locked, xrpl_sequence := some 42 } :=
  ⟨rfl, (c4_lock_amended escrowMgrW 5 "escrow_w" 42).2.2 escrowW rfl⟩

/-- C8 counterexample: `create_escrow_offer` registers an escrow of negative
amount for a consent id that already has an active escrow, so neither the
one-escrow-per-consent invariant nor `amount > 0` is enforced. -/
theorem c8_counterexample :
    (create_escrow_offer sha0 escrowMgrW 0 "P2" "Q2" (-5) "c1" "BH2" 72 "x2" "sec2").1.amount =
      -5 ∧
    (create_escrow_offer sha0 escrowMgrW 0 "P2" "Q2" (-5) "c1" "BH2" 72 "x2" "sec2").1.consent_id
      = "c1" ∧
    dictLookup (create_escrow_offer sha0 escrowMgrW 0 "P2" "Q2" (-5) "c1" "BH2" 72 "x2"
        "sec2").2.2.active_escrows "escrow_x2" =
      some (create_escrow_offer sha0 escrowMgrW 0 "P2" "Q2" (-5) "c1" "BH2" 72 "x2" "sec2").1 ∧
    dictLookup (create_escrow_offer sha0 escrowMgrW 0 "P2" "Q2" (-5) "c1" "BH2" 72 "x2"
        "sec2").2.2.active_escrows "escrow_w" = some escrowW ∧
    escrowW.consent_id = "c1" := by
  refine ⟨rfl, rfl, rfl, rfl, rfl⟩

/-- C8 amended: `create_escrow_offer` performs no precondition validation: for
every amount (including non-positive ones) and every consent id (including one
that already has an active escrow) it registers the new contract under the
fresh escrow id in state CREATED and leaves every other entry untouched. -/
theorem c8_create_amended (sha : String → String) (m : XRPLEscrowManager) (now : Nat)
    (payer payee : String) (amount : Int) (consent_id fhir_hash : String)
    (delivery_hours : Nat) (id_hex preimage : String) :
    (create_escrow_offer sha m now payer payee amount consent_id fhir_hash delivery_hours
      id_hex preimage).1.amount = amount ∧
    (create_escrow_offer sha m now payer payee amount consent_id fhir_hash delivery_hours
      id_hex preimage).1.consent_id = consent_id ∧
    (create_escrow_offer sha m now payer payee amount consent_id fhir_hash delivery_hours
      id_hex preimage).1.status = EscrowStatus.created ∧
    dictLookup (create_escrow_offer sha m now payer payee amount consent_id fhir_hash
      delivery_hours id_hex preimage).2.2.active_escrows ("escrow_" ++ id_hex) =
      some (create_escrow_offer sha m now payer payee amount consent_id fhir_hash
        delivery_hours id_hex preimage).1 ∧
    (∀ k, k ≠ "escrow_" ++ id_hex →
      dictLookup (create_escrow_offer sha m now payer payee amount consent_id fhir_hash
        delivery_hours id_hex preimage).2.2.active_escrows k =
      dictLookup m.active_escrows k) := by
  refine ⟨rfl, rfl, rfl, ?_, ?_⟩
  · simp [create_escrow_offer, log_escrow_action, dictLookup_insert_self]
  · intro k hk
    simp [create_escrow_offer, log_escrow_action, dictLookup_insert_other _ _ _ _ hk]

/-- Witness for C8 (amended) at concrete arguments. -/
theorem c8_witness :
    ("other" : String) ≠ "escrow_x2" ∧
    dictLookup (create_escrow_offer sha0 emptyEscrowMgr 0 "P" "Q" 1 "c" "BH" 72 "x2"
      "s").2.2.active_escrows "other" = dictLookup emptyEscrowMgr.active_escrows "other" :=
  ⟨by decide,
    (c8_create_amended sha0 emptyEscrowMgr 0 "P" "Q" 1 "c" "BH" 72 "x2" "s").2.2.2.2
      "other" (by decide)⟩

/-- C9 counterexample: the contract returned by `create_escrow_offer` carries
the hash-lock secret itself in `data_condition.preimage`, so the preimage is
handed to the caller at creation, before fulfillment. -/
theorem c9_counterexample :
    (create_escrow_offer sha0 emptyEscrowMgr 0 "P" "Q" 50 "c" "BH" 72 "w1"
      "topsecret").1.data_condition.preimage = "topsecret" := rfl

/-- C9 amended: the state-inspection outputs (`get_escrow_status`,
`get_xrpl_memo_data`) and the XRPL EscrowCreate envelope are independent of the
stored preimage — they expose only its digest — but `create_escrow_offer`
returns the full contract, which contains the preimage itself. -/
theorem c9_views_amended :
    ∀ (m : XRPLEscrowManager) (e : EscrowContract) (p : String),
    escrowStatusView (setPreimage e p) = escrowStatusView e ∧
    escrowMemoView (setPreimage e p) = escrowMemoView e ∧
    build_escrow_create_transaction m (setPreimage e p) =
      build_escrow_create_transaction m e := by
  intro m e p
  exact ⟨rfl, rfl, rfl⟩

/- ===================== consent_manager.py ===================== -/

/-- Python dict delete `del d[k]`. -/
def dictRemove {α : Type} : List (String × α) → String → List (String × α)
  | [], _ => []
  | kv :: tl, k => if kv.1 == k then tl else kv :: dictRemove tl k

/-- Dataclass `ConsentScope`. -/
structure ConsentScope where
  data_types : List String
  collection_period : String
  usage_purpose : String
  third_party_sharing : Bool
  retention_period : String
deriving DecidableEq, Repr

/-- Dataclass `ConsentTerms`; `created_at` is filled with the current time by
`__post_init__` when the caller leaves it out, which the embedding models by
letting callers pass the clock value. -/
structure ConsentTerms where
  recipient : String
  scope : ConsentScope
  compensation : Int
  valid_until : Nat
  withdrawal_right : Bool := true
  created_at : Nat
deriving DecidableEq, Repr

/-- Constant `pipaCompliance` block written by `create_consent_vc`. -/
structure PipaCompliance where
  recipientNotified : Bool
  purposeSpecified : Bool
  dataTypesListed : Bool
  retentionPeriodSpecified : Bool
  consequencesOfRefusal : String
deriving DecidableEq, Repr

/-- Nested `compensation` object of the credential subject. -/
structure CompensationBlock where
  amount : Int
  currency : String
deriving DecidableEq, Repr

/-- Nested `consentTerms` object of the credential subject. -/
structure SubjectConsentTerms where
  recipient : String
  purpose : String
  dataTypes : List String
  collectionPeriod : String
  retentionPeriod : String
  thirdPartySharing : Bool
  compensation : CompensationBlock
  withdrawalRight : Bool
  pipa : PipaCompliance
deriving DecidableEq, Repr

/-- The `credential_subject` dict built by `create_consent_vc` (plus the
`withdrawalDate` key added by `withdraw_consent`). -/
structure CredentialSubject where
  id : String
  consentGiven : Bool
  consentTerms : SubjectConsentTerms
  consentDate : String
  validUntil : String
  withdrawalDate : Option String := none
deriving DecidableEq, Repr

/-- The `proof` dict produced by `_create_proof`. -/
structure ProofBlock where
  type : String
  created : String
  verificationMethod : String
  proofPurpose : String
  signatureValue : String
deriving DecidableEq, Repr

/-- Dataclass `VerifiableCredential`. -/
structure VerifiableCredential where
  context : List String
  id : String
  type : List String
  issuer : String
  issuance_date : Nat
  expiration_date : Nat
  credential_subject : CredentialSubject
  proof : Option ProofBlock := none
deriving DecidableEq, Repr

/-- One entry of `consent_history` appended by `_log_consent_action`. -/
structure ConsentLogEntry where
  timestamp : String
  action : String
  consentId : String
  patientDid : String
  recipient : String
deriving DecidableEq, Repr

/-- State of class `ConsentManager` (the public key is the pair of the stored
private key, so only the private key is carried). -/
structure ConsentManager where
  platform_did : String
  private_key : String
  active_consents : List (String × VerifiableCredential) := []
  consent_history : List ConsentLogEntry := []
deriving DecidableEq, Repr

/-- Idealised RSA-PSS signing: the signature binds the key pair and the signed
digest (determinism is a modelling artifact; only the verification relation
matters to the code under verification). -/
def rsaSign (private_key message_hash : String) : String :=
  private_key ++ ":" ++ message_hash

/-- Idealised RSA-PSS verification: succeeds exactly on a signature of the same
digest under the same key pair. -/
def rsaVerify (private_key signature message_hash : String) : Bool :=
  signature == rsaSign private_key message_hash

/-- JSON key-value pair under `separators=(',', ':')`. -/
def jkv (k v : String) : String := jstr k ++ ":" ++ v

/-- JSON boolean literal. -/
def jbool : Bool → String
  | true => "true"
  | false => "false"

/-- JSON list of string literals. -/
def jlist (xs : List String) : String :=
  "[" ++ String.intercalate "," (xs.map jstr) ++ "]"

/-- Canonical JSON of the `pipaCompliance` dict (keys sorted). -/
def renderPipa (p : PipaCompliance) : String :=
  lbr ++ jkv "consequencesOfRefusal" (jstr p.consequencesOfRefusal) ++ "," ++
    jkv "dataTypesListed" (jbool p.dataTypesListed) ++ "," ++
    jkv "purposeSpecified" (jbool p.purposeSpecified) ++ "," ++
    jkv "recipientNotified" (jbool p.recipientNotified) ++ "," ++
    jkv "retentionPeriodSpecified" (jbool p.retentionPeriodSpecified) ++ rbr

/-- Canonical JSON of the `compensation` dict (keys sorted). -/
def renderCompensation (c : CompensationBlock) : String :=
  lbr ++ jkv "amount" (toString c.amount) ++ "," ++ jkv "currency" (jstr c.currency) ++ rbr

/-- Canonical JSON of the `consentTerms` dict (keys sorted). -/
def renderSubjectTerms (t : SubjectConsentTerms) : String :=
  lbr ++ jkv "collectionPeriod" (jstr t.collectionPeriod) ++ "," ++
    jkv "compensation" (renderCompensation t.compensation) ++ "," ++
    jkv "dataTypes" (jlist t.dataTypes) ++ "," ++
    jkv "pipaCompliance" (renderPipa t.pipa) ++ "," ++
    jkv "purpose" (jstr t.purpose) ++ "," ++
    jkv "recipient" (jstr t.recipient) ++ "," ++
    jkv "retentionPeriod" (jstr t.retentionPeriod) ++ "," ++
    jkv "thirdPartySharing" (jbool t.thirdPartySharing) ++ "," ++
    jkv "withdrawalRight" (jbool t.withdrawalRight) ++ rbr

/-- Canonical JSON of the `credentialSubject` dict (keys sorted; the
`withdrawalDate` key is present only after withdrawal). -/
def renderSubject (s : CredentialSubject) : String :=
  lbr ++ jkv "consentDate" (jstr s.consentDate) ++ "," ++
    jkv "consentGiven" (jbool s.consentGiven) ++ "," ++
    jkv "consentTerms" (renderSubjectTerms s.consentTerms) ++ "," ++
    jkv "id" (jstr s.id) ++ "," ++
    jkv "validUntil" (jstr s.validUntil) ++
    (match s.withdrawalDate with
     | none => ""
     | some d => "," ++ jkv "withdrawalDate" (jstr d)) ++ rbr

/-- Canonical JSON of the `proof` dict (keys sorted). -/
def renderProof (pf : ProofBlock) : String :=
  lbr ++ jkv "created" (jstr pf.created) ++ "," ++
    jkv "proofPurpose" (jstr pf.proofPurpose) ++ "," ++
    jkv "signatureValue" (jstr pf.signatureValue) ++ "," ++
    jkv "type" (jstr pf.type) ++ "," ++
    jkv "verificationMethod" (jstr pf.verificationMethod) ++ rbr

/-- Rendering of the `proof` value of `to_dict`: the dict or JSON null. -/
def renderProofOpt : Option ProofBlock → String
  | none => "null"
  | some pf => renderProof pf

/-- Canonical JSON of `to_dict` with the `proof` key rendered as `proofPart`
(keys sorted; `json.dumps(..., sort_keys=True, separators=(',', ':'))`). -/
def vcJsonCore (vc : VerifiableCredential) (proofPart : String) : String :=
  lbr ++ jkv "@context" (jlist vc.context) ++ "," ++
    jkv "credentialSubject" (renderSubject vc.credential_subject) ++ "," ++
    jkv "expirationDate" (jstr (isoZ vc.expiration_date)) ++ "," ++
    jkv "id" (jstr vc.id) ++ "," ++
    jkv "issuanceDate" (jstr (isoZ vc.issuance_date)) ++ "," ++
    jkv "issuer" (jstr vc.issuer) ++ "," ++
    proofPart ++
    jkv "type" (jlist vc.type) ++ rbr

/-- Serialization hashed by `_create_proof` and `_calculate_vc_hash`: the full
`to_dict` including the `proof` key (`null` when the proof is not yet set). -/
def vc_canonical_json (vc : VerifiableCredential) : String :=
  vcJsonCore vc (jkv "proof" (renderProofOpt vc.proof) ++ ",")

/-- Serialization hashed by `_verify_proof`: `to_dict` after
`del vc_dict["proof"]`, so the `proof` key is absent altogether. -/
def vc_canonical_json_noproof (vc : VerifiableCredential) : String :=
  vcJsonCore vc ""

/-- Method `_create_proof`. -/
def create_proof (sha : String → String) (platform_did private_key : String) (now : Nat)
    (vc : VerifiableCredential) : ProofBlock :=
  let message_hash := sha (vc_canonical_json vc)
  { type := "RsaSignature2018"
    created := isoZ now
    verificationMethod := platform_did ++ "#key-1"
    proofPurpose := "assertionMethod"
    signatureValue := rsaSign private_key message_hash }

/-- Method `_verify_proof` (a missing proof raises inside the `try` block and is
caught, so it yields `false`). -/
def verify_proof (sha : String → String) (private_key : String)
    (vc : VerifiableCredential) : Bool :=
  match vc.proof with
  | none => false
  | some pf => rsaVerify private_key pf.signatureValue (sha (vc_canonical_json_noproof vc))

/-- Constant PIPA block of `create_consent_vc`. -/
def pipaDefaults : PipaCompliance :=
  { recipientNotified := true, purposeSpecified := true, dataTypesListed := true,
    retentionPeriodSpecified := true,
    consequencesOfRefusal := "데이터 제공 불가로 인한 연구 참여 제한" }

/-- The credential value built by `create_consent_vc` just before
`_create_proof` is called (its `proof` field still `None`). -/
def buildUnsignedVc (m : ConsentManager) (now : Nat)
    (patient_did : String) (consent_terms : ConsentTerms) (uuid : String) :
    VerifiableCredential :=
  let vc_id := "urn:uuid:" ++ uuid
  let credential_subject : CredentialSubject :=
    { id := patient_did
      consentGiven := true
      consentTerms :=
        { recipient := consent_terms.recipient
          purpose := consent_terms.scope.usage_purpose
          dataTypes := consent_terms.scope.data_types
          collectionPeriod := consent_terms.scope.collection_period
          retentionPeriod := consent_terms.scope.retention_period
          thirdPartySharing := consent_terms.scope.third_party_sharing
          compensation := { amount := consent_terms.compensation, currency := "XRP" }
          withdrawalRight := consent_terms.withdrawal_right
          pipa := pipaDefaults }
      consentDate := isoZ consent_terms.created_at
      validUntil := isoZ consent_terms.valid_until
      withdrawalDate := none }
  let vc : VerifiableCredential :=
    { context := ["https://www.w3.org/2018/credentials/v1",
                  "https://www.w3.org/2018/credentials/examples/v1",
                  "https://sportique.health/contexts/consent/v1"]
      id := vc_id
      type := ["VerifiableCredential", "HealthDataConsentCredential"]
      issuer := m.platform_did
      issuance_date := now
      expiration_date := consent_terms.valid_until
      credential_subject := credential_subject
      proof := none }
  vc

/-- Method `create_consent_vc`; `uuid` stands for the fresh value of
`_generate_uuid`. -/
def create_consent_vc (sha : String → String) (m : ConsentManager) (now : Nat)
    (patient_did : String) (consent_terms : ConsentTerms) (uuid : String) :
    VerifiableCredential × ConsentManager :=
  let vc_id := "urn:uuid:" ++ uuid
  let vc := buildUnsignedVc m now patient_did consent_terms uuid
  let pf := create_proof sha m.platform_did m.private_key now vc
  let vc' := { vc with proof := some pf }
  let m' := { m with
    active_consents := dictInsert m.active_consents vc_id vc'
    consent_history := m.consent_history ++
      [{ timestamp := isoZ now, action := "CREATED", consentId := vc_id,
         patientDid := patient_did, recipient := consent_terms.recipient }] }
  (vc', m')

/-- Method `withdraw_consent`. -/
def withdraw_consent (m : ConsentManager) (now : Nat) (vc_id patient_did : String) :
    Bool × ConsentManager :=
  match dictLookup m.active_consents vc_id with
  | none => (false, m)
  | some vc =>
    if vc.credential_subject.id ≠ patient_did then (false, m)
    else
      let m' := { m with
        active_consents := dictRemove m.active_consents vc_id
        consent_history := m.consent_history ++
          [{ timestamp := isoZ now, action := "WITHDRAWN", consentId := vc_id,
             patientDid := patient_did,
             recipient := vc.credential_subject.consentTerms.recipient }] }
      (true, m')

/-- Method `verify_consent`. -/
def verify_consent (sha : String → String) (m : ConsentManager) (now : Nat)
    (vc_id recipient : String) : Bool :=
  match dictLookup m.active_consents vc_id with
  | none => false
  | some vc =>
    if now > vc.expiration_date then false
    else if vc.credential_subject.consentTerms.recipient ≠ recipient then false
    else if vc.credential_subject.consentGiven = false then false
    else verify_proof sha m.private_key vc

/- ===================== consent claims ===================== -/

theorem string_append_left_cancel {s t u : String} (h : s ++ t = s ++ u) : t = u := by
  cases t with
  | mk td =>
    cases u with
    | mk ud =>
      have hd := congrArg String.data h
      simp only [String.data_append] at hd
      exact congrArg String.mk (List.append_cancel_left hd)

theorem rsaSign_inj {key m1 m2 : String} (h : rsaSign key m1 = rsaSign key m2) : m1 = m2 :=
  string_append_left_cancel (string_append_left_cancel (by simpa [rsaSign, String.append_assoc]
    using h))

theorem vcJsonCore_length (vc : VerifiableCredential) (p : String) :
    (vcJsonCore vc p).length = (vcJsonCore vc "").length + p.length := by
  simp only [vcJsonCore, String.length_append]
  simp
  omega

/-- The digest signed at issuance (canonical form with `"proof": null` present)
and the digest recomputed at verification (canonical form with the `proof` key
deleted) are digests of different strings, so the idealised signature never
verifies on a credential produced by `_create_proof`. -/
theorem verify_proof_of_created_false (sha : String → String)
    (hinj : Function.Injective sha) (did key : String) (now : Nat)
    (vc : VerifiableCredential) (hp : vc.proof = none) :
    verify_proof sha key { vc with proof := some (create_proof sha did key now vc) } = false := by
  simp only [verify_proof, create_proof, rsaVerify]
  rw [beq_eq_false_iff_ne]
  intro h
  have hmsg : sha (vc_canonical_json vc) =
      sha (vc_canonical_json_noproof { vc with proof := some (create_proof sha did key now vc) }) :=
    rsaSign_inj h
  have hcanon := hinj hmsg
  have hnp : vc_canonical_json_noproof
      { vc with proof := some (create_proof sha did key now vc) } = vcJsonCore vc "" := rfl
  rw [hnp] at hcanon
  rw [vc_canonical_json, hp] at hcanon
  have hlen := congrArg String.length hcanon
  rw [vcJsonCore_length] at hlen
  have h13 : (jkv "proof" (renderProofOpt none) ++ ",").length = 13 := by decide
  rw [h13] at hlen
  omega

/-- C1 (code behaviour at the failing input): issuing a consent credential and
then verifying it with the same recipient before expiry returns `false` for
every injective digest function — the signature created at issuance hashes the
canonical form with `"proof": null` while verification hashes the canonical
form with the `proof` key removed, so the signature check never passes. -/
theorem c1_issue_then_verify_false (sha : String → String)
    (hinj : Function.Injective sha) (m : ConsentManager) (now now' : Nat)
    (patient_did : String) (terms : ConsentTerms) (uuid : String)
    (hexp : now' ≤ terms.valid_until) :
    verify_consent sha (create_consent_vc sha m now patient_did terms uuid).2 now'
      ("urn:uuid:" ++ uuid) terms.recipient = false := by
  have hlt : ¬ now' > terms.valid_until := by omega
  simp only [create_consent_vc, verify_consent, dictLookup_insert_self, buildUnsignedVc]
  simp only [hlt, if_false]
  rw [if_neg (fun hh => hh rfl)]
  rw [if_neg (by simp)]
  exact verify_proof_of_created_false sha hinj m.platform_did m.private_key now
    (buildUnsignedVc m now patient_did terms uuid) rfl

/-- Witness for C1 at a concrete issuance. -/
theorem c1_witness :
    Function.Injective sha0 ∧ (5 : Nat) ≤ 1000 ∧
    verify_consent sha0
      (create_consent_vc sha0
        { platform_did := "did:platform", private_key := "KEY" } 0 "did:pat"
        { recipient := "did:rec",
          scope := { data_types := ["Observation"], collection_period := "3months",
                     usage_purpose := "research", third_party_sharing := false,
                     retention_period := "5years" },
          compensation := 50, valid_until := 1000, withdrawal_right := true,
          created_at := 0 } "u1").2 5 ("urn:uuid:" ++ "u1") "did:rec" = false :=
  ⟨fun _ _ h => h, by omega,
    c1_issue_then_verify_false sha0 (fun _ _ h => h)
      { platform_did := "did:platform", private_key := "KEY" } 0 5 "did:pat"
      { recipient := "did:rec",
        scope := { data_types := ["Observation"], collection_period := "3months",
                   usage_purpose := "research", third_party_sharing := false,
                   retention_period := "5years" },
        compensation := 50, valid_until := 1000, withdrawal_right := true,
        created_at := 0 } "u1" (by decide)⟩

/- ===================== audit_trail.py ===================== -/

/-- Enum `AuditEventType` of audit_trail.py. -/
inductive AuditEventType where
  | consent_created
  | consent_withdrawn
  | data_requested
  | escrow_created
  | escrow_locked
  | data_delivered
  | payment_completed
  | access_granted
  | access_revoked
  | compliance_check
deriving DecidableEq, Repr

/-- Values stored in an audit event's free-form `metadata` dict. -/
inductive MetaVal where
  | s (v : String)
  | n (v : Int)
  | b (v : Bool)
  | l (v : List String)
deriving DecidableEq, Repr

/-- Dataclass `AuditEvent`. -/
structure AuditEvent where
  event_id : String
  event_type : AuditEventType
  timestamp : Nat
  actor : String
  subject : String
  resource_id : String
  xrpl_tx_hash : Option String := none
  metadata : List (String × MetaVal) := []
  compliance_status : Option String := none
deriving DecidableEq, Repr

/-- State of class `AuditTrailManager`. Only the keys of the
`xrpl_transactions` dict are carried: the stored records are read by no
verified operation, and `verify_data_integrity` tests key membership only.
The `access_logs` list and its operations are likewise outside every claim. -/
structure AuditTrailManager where
  platform_did : String
  audit_events : List AuditEvent := []
  xrpl_transactions : List String := []
deriving DecidableEq, Repr

/-- Metadata keys `_check_compliance` requires on a CONSENT_CREATED event. -/
def requiredConsentFields : List String :=
  ["purpose", "dataTypes", "retentionPeriod", "recipient"]

/-- Method `_check_compliance` (the metadata dict must be non-empty — Python
truthiness — and contain all required keys). -/
def check_compliance (event : AuditEvent) : String :=
  if event.event_type = AuditEventType.consent_created then
    if !event.metadata.isEmpty &&
        requiredConsentFields.all (fun f => event.metadata.any (fun kv => kv.1 == f)) then
      "COMPLIANT"
    else
      "NON_COMPLIANT"
  else "COMPLIANT"

/-- Method `record_audit_event`; `id_hex` stands for the fresh value of
`_generate_id`, and an absent metadata argument is the empty list
(`metadata or \x7b\x7d` in the source). -/
def record_audit_event (m : AuditTrailManager) (now : Nat) (event_type : AuditEventType)
    (actor subject resource_id : String) (xrpl_tx_hash : Option String)
    (metadata : List (String × MetaVal)) (id_hex : String) : String × AuditTrailManager :=
  let event_id := "audit_" ++ id_hex
  let ev0 : AuditEvent :=
    { event_id := event_id, event_type := event_type, timestamp := now, actor := actor,
      subject := subject, resource_id := resource_id, xrpl_tx_hash := xrpl_tx_hash,
      metadata := metadata, compliance_status := none }
  let ev := { ev0 with compliance_status := some (check_compliance ev0) }
  (event_id, { m with audit_events := m.audit_events ++ [ev] })

/-- Ordering key of `related_events.sort(key=lambda x: x.timestamp)`. -/
def tsLe (a b : AuditEvent) : Prop := a.timestamp ≤ b.timestamp

instance : DecidableRel tsLe := fun a b => Nat.decLe a.timestamp b.timestamp

instance : IsTotal AuditEvent tsLe := ⟨fun a b => Nat.le_total a.timestamp b.timestamp⟩

instance : IsTrans AuditEvent tsLe := ⟨fun _ _ _ => Nat.le_trans⟩

/-- One entry of the `integrity_checks` list of `verify_data_integrity`. -/
structure IntegrityCheck where
  eventId : String
  timestamp : String
  valid : Bool
  issues : List String
deriving DecidableEq, Repr

/-- Report of `verify_data_integrity` (the no-events early return carries only
`valid` and `reason`; the other fields stay at their absent defaults). -/
structure IntegrityReport where
  valid : Bool
  reason : Option String := none
  resourceId : Option String := none
  eventCount : Option Nat := none
  checks : List IntegrityCheck := []
  verifiedAt : Option String := none
deriving DecidableEq, Repr

/-- External-reference check of one event: if the event carries an XRPL
transaction hash, that hash must be a key of the transaction index. -/
def externalRefOk (txs : List String) (e : AuditEvent) : Bool :=
  match e.xrpl_tx_hash with
  | some h => txs.contains h
  | none => true

/-- The per-event loop of `verify_data_integrity`: each event is checked for a
missing external reference, and against the timestamp of its predecessor in
the (already sorted) sequence. -/
def integrityChecks (txs : List String) : Option Nat → List AuditEvent → List IntegrityCheck
  | _, [] => []
  | prev, e :: rest =>
    let missingTx : Bool := !externalRefOk txs e
    let orderBad : Bool :=
      match prev with
      | some t => decide (e.timestamp < t)
      | none => false
    let issues := (if missingTx then ["Missing XRPL transaction"] else []) ++
      (if orderBad then ["Invalid timestamp order"] else [])
    { eventId := e.event_id, timestamp := isoZ e.timestamp,
      valid := !(missingTx || orderBad), issues := issues } ::
      integrityChecks txs (some e.timestamp) rest

/-- Method `verify_data_integrity`. The Python list sort is stable, so it is
modelled by the stable insertion sort on the timestamp key. -/
def verify_data_integrity (m : AuditTrailManager) (now : Nat) (resource_id : String) :
    IntegrityReport :=
  let related := m.audit_events.filter (fun e => e.resource_id == resource_id)
  if related.isEmpty then
    { valid := false, reason := some "No audit trail found" }
  else
    let sorted := related.insertionSort tsLe
    let checks := integrityChecks m.xrpl_transactions none sorted
    { valid := checks.all (fun c => c.valid), reason := none,
      resourceId := some resource_id, eventCount := some sorted.length,
      checks := checks, verifiedAt := some (isoZ now) }

/-- Event at timestamp 2 (appended first). -/
def evT2 : AuditEvent :=
  { event_id := "audit_a", event_type := .data_requested, timestamp := 2,
    actor := "A", subject := "S", resource_id := "r" }

/-- Event at timestamp 1 (appended second, out of order). -/
def evT1 : AuditEvent :=
  { event_id := "audit_b", event_type := .data_requested, timestamp := 1,
    actor := "A", subject := "S", resource_id := "r" }

/-- Event at timestamp 3 (appended third). -/
def evT3 : AuditEvent :=
  { event_id := "audit_c", event_type := .data_requested, timestamp := 3,
    actor := "A", subject := "S", resource_id := "r" }

/-- Audit chain whose events were appended in the order [t=2, t=1, t=3]. -/
def auditMgrOutOfOrder : AuditTrailManager :=
  { platform_did := "did:p", audit_events := [evT2, evT1, evT3] }

/- ===================== audit claims ===================== -/

theorem integrityChecks_all_valid (txs : List String) :
    ∀ (l : List AuditEvent) (prev : Option Nat),
    List.Sorted tsLe l →
    (∀ t, prev = some t → ∀ x ∈ l, t ≤ x.timestamp) →
    ((integrityChecks txs prev l).all (fun c => c.valid) = true ↔
      ∀ e ∈ l, externalRefOk txs e = true)
  | [], prev, _, _ => by simp [integrityChecks]
  | e :: rest, prev, hsort, hprev => by
    have hs := List.sorted_cons.mp hsort
    have ih := integrityChecks_all_valid txs rest (some e.timestamp) hs.2
      (fun t ht x hx => by cases ht; exact hs.1 x hx)
    cases prev with
    | none =>
      simp [integrityChecks, List.all_cons, ih, Bool.not_not, List.forall_mem_cons]
    | some t =>
      have ht : ¬ e.timestamp < t := Nat.not_lt.mpr (hprev t rfl e (List.mem_cons_self e rest))
      simp [integrityChecks, List.all_cons, ih, ht, Bool.not_not, List.forall_mem_cons]

/-- C5 amended: the report of `verify_data_integrity` is valid exactly when the
resource has at least one event and every one of its events with an external
transaction hash finds that hash in the transaction index; the timestamp-order
flag never fires (events are sorted by timestamp before the loop), and a
resource with zero events yields the invalid report with reason
"No audit trail found". -/
theorem c5_verify_integrity_amended (m : AuditTrailManager) (now : Nat) (rid : String) :
    ((verify_data_integrity m now rid).valid = true ↔
      (m.audit_events.filter (fun e => e.resource_id == rid) ≠ [] ∧
        ∀ e ∈ m.audit_events, e.resource_id = rid →
          externalRefOk m.xrpl_transactions e = true)) ∧
    (m.audit_events.filter (fun e => e.resource_id == rid) = [] →
      verify_data_integrity m now rid =
        { valid := false, reason := some "No audit trail found" }) := by
  constructor
  · by_cases hemp : m.audit_events.filter (fun e => e.resource_id == rid) = []
    · simp [verify_data_integrity, hemp]
    · have hne : (m.audit_events.filter (fun e => e.resource_id == rid)).isEmpty = false := by
        simpa [List.isEmpty_iff] using hemp
      have hsorted := List.sorted_insertionSort tsLe
        (m.audit_events.filter (fun e => e.resource_id == rid))
      have hperm := List.perm_insertionSort tsLe
        (m.audit_events.filter (fun e => e.resource_id == rid))
      have hiff := integrityChecks_all_valid m.xrpl_transactions
        ((m.audit_events.filter (fun e => e.resource_id == rid)).insertionSort tsLe) none
        hsorted (fun t ht => by cases ht)
      simp only [verify_data_integrity, hne, Bool.false_eq_true, if_false]
      rw [hiff]
      constructor
      · intro hall
        refine ⟨hemp, fun e he hr => ?_⟩
        exact hall e (by rw [hperm.mem_iff, List.mem_filter] ; exact ⟨he, by simp [hr]⟩)
      · intro hall e he
        have hmem := List.mem_filter.mp (hperm.mem_iff.mp he)
        exact hall.2 e hmem.1 (by simpa using hmem.2)
  · intro hemp
    simp [verify_data_integrity, hemp]

/-- Witness for C5 (amended) at a concrete chain. -/
theorem c5_witness :
    (verify_data_integrity auditMgrOutOfOrder 10 "r").valid = true ↔
      (auditMgrOutOfOrder.audit_events.filter (fun e => e.resource_id == "r") ≠ [] ∧
        ∀ e ∈ auditMgrOutOfOrder.audit_events, e.resource_id = "r" →
          externalRefOk auditMgrOutOfOrder.xrpl_transactions e = true) :=
  (c5_verify_integrity_amended auditMgrOutOfOrder 10 "r").1

/-- C5 counterexample: three events appended out of timestamp order
([t=2, t=1, t=3]) with no external references still verify as valid with no
issue flagged, where the claim demands an ordering violation and an invalid
report. -/
theorem c5_counterexample :
    (verify_data_integrity auditMgrOutOfOrder 10 "r").valid = true ∧
    (verify_data_integrity auditMgrOutOfOrder 10 "r").checks.all
      (fun c => c.issues.isEmpty) = true := by
  exact ⟨rfl, rfl⟩

/- ===================== sportique_platform.py ===================== -/

/-- Enum `OfferStatus` of sportique_platform.py. -/
inductive OfferStatus where
  | pending
  | accepted
  | rejected
  | completed
  | expired
deriving DecidableEq, Repr

/-- Dataclass `DataOffer` (the target-criteria dict is read by no verified
operation and is carried as opaque key-value data). -/
structure DataOffer where
  offer_id : String
  requester : String
  requester_name : String
  data_types : List String
  purpose : String
  compensation : Int
  collection_period : String
  retention_period : String
  third_party_sharing : Bool
  valid_until : Nat
  created_at : Nat
  status : OfferStatus := .pending
  target_criteria : Option (List (String × String)) := none
deriving DecidableEq, Repr

/-- Dataclass `DataTransaction`. -/
structure DataTransaction where
  transaction_id : String
  offer_id : String
  patient_did : String
  consent_id : String
  escrow_id : String
  bundle_id : String
  bundle_hash : String
  status : String
  created_at : Nat
  completed_at : Option Nat := none
deriving DecidableEq, Repr

/-- State of class `SportiQuePlatform`. The FHIR manager is the
record-construction collaborator: its only contribution to the verified
operations is the pair (bundle id, bundle hash), which is passed in as fresh
input. The `user_profiles` dict is read by no verified operation. -/
structure SportiQuePlatform where
  platform_did : String
  consent_manager : ConsentManager
  escrow_manager : XRPLEscrowManager
  audit_manager : AuditTrailManager
  offers : List (String × DataOffer) := []
  transactions : List (String × DataTransaction) := []
deriving DecidableEq, Repr

/-- `json.dumps` (default separators) of one memo wrapper of the envelope. -/
def renderXrplMemo (mm : XrplMemo) : String :=
  lbr ++ jstr "Memo" ++ ": " ++ lbr ++ jstr "MemoType" ++ ": " ++ jstr mm.MemoType ++
    ", " ++ jstr "MemoData" ++ ": " ++ jstr mm.MemoData ++ rbr ++ rbr

/-- `json.dumps` (default separators, insertion order) of the EscrowCreate
envelope, as embedded in the `accept_offer` result. -/
def renderEscrowCreateTx (tx : EscrowCreateTx) : String :=
  lbr ++ jstr "TransactionType" ++ ": " ++ jstr tx.TransactionType ++ ", " ++
    jstr "Account" ++ ": " ++ jstr tx.Account ++ ", " ++
    jstr "Destination" ++ ": " ++ jstr tx.Destination ++ ", " ++
    jstr "Amount" ++ ": " ++ jstr tx.Amount ++ ", " ++
    jstr "FinishAfter" ++ ": " ++ toString tx.FinishAfter ++ ", " ++
    jstr "Condition" ++ ": " ++ jstr tx.Condition ++ ", " ++
    jstr "Memos" ++ ": " ++ "[" ++ String.intercalate ", " (tx.Memos.map renderXrplMemo) ++
    "]" ++ rbr

/-- Result dict of a successful `accept_offer`. -/
structure AcceptResult where
  transactionId : String
  consentId : String
  escrowId : String
  bundleId : String
  bundleHash : String
  xrplTransaction : String
deriving DecidableEq, Repr

/-- Fresh values consumed by one `accept_offer` run: the consent uuid, the
record-construction collaborator output (bundle id and hash), the escrow id
and preimage, the transaction id and the audit event id. -/
structure AcceptFresh where
  vc_uuid : String
  bundle_id : String
  bundle_hash : String
  escrow_id_hex : String
  preimage : String
  tx_id_hex : String
  audit_id_hex : String
deriving DecidableEq, Repr

/-- Method `accept_offer` (raised `ValueError`s appear as `Except.error`). -/
def accept_offer (sha : String → String) (p : SportiQuePlatform) (now : Nat)
    (offer_id patient_did patient_xrpl_address requester_xrpl_address : String)
    (fresh : AcceptFresh) : Except String AcceptResult × SportiQuePlatform :=
  match dictLookup p.offers offer_id with
  | none => (Except.error "Offer not found", p)
  | some offer =>
    if offer.status ≠ OfferStatus.pending then (Except.error "Offer is not available", p)
    else if now > offer.valid_until then
      (Except.error "Offer has expired",
        { p with offers := dictInsert p.offers offer_id { offer with status := .expired } })
    else
      let consent_scope : ConsentScope :=
        { data_types := offer.data_types, collection_period := offer.collection_period,
          usage_purpose := offer.purpose, third_party_sharing := offer.third_party_sharing,
          retention_period := offer.retention_period }
      let consent_terms : ConsentTerms :=
        { recipient := offer.requester, scope := consent_scope,
          compensation := offer.compensation, valid_until := offer.valid_until,
          withdrawal_right := true, created_at := now }
      let cres := create_consent_vc sha p.consent_manager now patient_did consent_terms
        fresh.vc_uuid
      let consent_vc := cres.1
      let bundle_id := fresh.bundle_id
      let bundle_hash := fresh.bundle_hash
      let eres := create_escrow_offer sha p.escrow_manager now requester_xrpl_address
        patient_xrpl_address offer.compensation consent_vc.id bundle_hash 72
        fresh.escrow_id_hex fresh.preimage
      let escrow_contract := eres.1
      let xrpl_tx := eres.2.1
      let transaction_id := "tx_" ++ fresh.tx_id_hex
      let txn : DataTransaction :=
        { transaction_id := transaction_id, offer_id := offer_id, patient_did := patient_did,
          consent_id := consent_vc.id, escrow_id := escrow_contract.escrow_id,
          bundle_id := bundle_id, bundle_hash := bundle_hash, status := "CONSENT_GIVEN",
          created_at := now, completed_at := none }
      let ares := record_audit_event p.audit_manager now AuditEventType.consent_created
        patient_did patient_did consent_vc.id none
        [("offerId", MetaVal.s offer_id), ("transactionId", MetaVal.s transaction_id),
         ("escrowId", MetaVal.s escrow_contract.escrow_id)] fresh.audit_id_hex
      (Except.ok
        { transactionId := transaction_id, consentId := consent_vc.id,
          escrowId := escrow_contract.escrow_id, bundleId := bundle_id,
          bundleHash := bundle_hash, xrplTransaction := renderEscrowCreateTx xrpl_tx },
        { p with
          consent_manager := cres.2
          escrow_manager := eres.2.2
          audit_manager := ares.2
          offers := dictInsert p.offers offer_id { offer with status := .accepted }
          transactions := dictInsert p.transactions transaction_id txn })

/-- Result dict of a successful `complete_data_delivery`. -/
structure DeliveryResult where
  success : Bool
  transactionId : String
  status : String
  completedAt : String
  xrplFinishTransaction : Option EscrowFinishTx
deriving DecidableEq, Repr

/-- Method `complete_data_delivery`. The boolean result of the lock step is
discarded exactly as in the source; a missing escrow id then surfaces as the
uncaught dictionary `KeyError` of the direct `active_escrows[...]` access. -/
def complete_data_delivery (sha : String → String) (p : SportiQuePlatform) (now : Nat)
    (transaction_id : String) (xrpl_sequence : Nat) (aud1 aud2 : String) :
    Except String DeliveryResult × SportiQuePlatform :=
  match dictLookup p.transactions transaction_id with
  | none => (Except.error "Transaction not found", p)
  | some txn =>
    let lres := lock_escrow_funds p.escrow_manager now txn.escrow_id xrpl_sequence
    let em1 := lres.2
    match dictLookup em1.active_escrows txn.escrow_id with
    | none => (Except.error "KeyError", { p with escrow_manager := em1 })
    | some escrow_contract =>
      let fres := fulfill_escrow sha em1 now txn.escrow_id txn.bundle_hash
        escrow_contract.data_condition.preimage
      if fres.1.1 = false then
        (Except.error "Failed to fulfill escrow", { p with escrow_manager := fres.2 })
      else
        let txn2 := { txn with status := "COMPLETED", completed_at := some now }
        let p1 := { p with
          escrow_manager := fres.2
          transactions := dictInsert p.transactions transaction_id txn2 }
        let a1 := record_audit_event p1.audit_manager now AuditEventType.data_delivered
          p.platform_did txn.patient_did txn.consent_id none
          [("transactionId", MetaVal.s transaction_id), ("bundleHash", MetaVal.s txn.bundle_hash),
           ("escrowId", MetaVal.s txn.escrow_id)] aud1
        let a2 := record_audit_event a1.2 now AuditEventType.payment_completed
          p.platform_did txn.patient_did txn.escrow_id none
          [("amount", MetaVal.n escrow_contract.amount), ("currency", MetaVal.s "XRP")] aud2
        (Except.ok
          { success := true, transactionId := transaction_id, status := txn2.status,
            completedAt := isoZ now, xrplFinishTransaction := fres.1.2 },
          { p1 with audit_manager := a2.2 })

/- ===================== orchestrator claims ===================== -/

/-- Sample pending data offer (witness data). -/
def offerW : DataOffer :=
  { offer_id := "offer_1", requester := "did:req", requester_name := "Req",
    data_types := ["Observation"], purpose := "research", compensation := 50,
    collection_period := "3months", retention_period := "5years",
    third_party_sharing := false, valid_until := 1000, created_at := 0 }

/-- Sample platform with one pending offer (witness data). -/
def platformW : SportiQuePlatform :=
  { platform_did := "did:platform"
    consent_manager := { platform_did := "did:platform", private_key := "KEY" }
    escrow_manager := emptyEscrowMgr
    audit_manager := { platform_did := "did:platform" }
    offers := [("offer_1", offerW)]
    transactions := [] }

/-- Sample fresh values for one `accept_offer` run. -/
def freshW : AcceptFresh :=
  { vc_uuid := "u1", bundle_id := "b1", bundle_hash := "BH", escrow_id_hex := "e1",
    preimage := "sec", tx_id_hex := "t1", audit_id_hex := "a1" }

/-- C6 counterexample: a successful `accept_offer` run appends exactly one
audit event, and no event of kind ESCROW_CREATED exists afterwards, where the
claim demands two appended events (consent-created then escrow-created). -/
theorem c6_counterexample :
    ((accept_offer sha0 platformW 5 "offer_1" "did:pat" "pa" "ra" freshW).1.toOption.isSome
      = true) ∧
    (accept_offer sha0 platformW 5 "offer_1" "did:pat" "pa" "ra"
      freshW).2.audit_manager.audit_events.length = 1 ∧
    ((accept_offer sha0 platformW 5 "offer_1" "did:pat" "pa" "ra"
      freshW).2.audit_manager.audit_events.filter
        (fun e => e.event_type == AuditEventType.escrow_created)).length = 0 := by
  exact ⟨rfl, rfl, rfl⟩

/-- C6 amended: every successful `accept_offer` appends exactly one audit
event to the chain, recording the consent creation (kind CONSENT_CREATED); no
escrow-created audit event is appended. -/
theorem c6_accept_offer_audit_amended (sha : String → String) (p : SportiQuePlatform)
    (now : Nat) (offer_id patient_did pa ra : String) (fresh : AcceptFresh) (o : DataOffer)
    (ho : dictLookup p.offers offer_id = some o) (hs : o.status = OfferStatus.pending)
    (hv : now ≤ o.valid_until) :
    (∃ r, (accept_offer sha p now offer_id patient_did pa ra fresh).1 = Except.ok r) ∧
    ∃ ev,
      (accept_offer sha p now offer_id patient_did pa ra fresh).2.audit_manager.audit_events =
        p.audit_manager.audit_events ++ [ev] ∧
      ev.event_type = AuditEventType.consent_created := by
  have h1 : ¬ o.status ≠ OfferStatus.pending := by simp [hs]
  have h2 : ¬ now > o.valid_until := by omega
  simp only [accept_offer, ho, h1, h2, if_false, record_audit_event]
  exact ⟨⟨_, rfl⟩, _, rfl, rfl⟩

/-- Witness for C6 (amended) at the sample platform. -/
theorem c6_witness :
    dictLookup platformW.offers "offer_1" = some offerW ∧
    offerW.status = OfferStatus.pending ∧ (5 : Nat) ≤ offerW.valid_until ∧
    ∃ ev,
      (accept_offer sha0 platformW 5 "offer_1" "did:pat" "pa" "ra"
        freshW).2.audit_manager.audit_events =
        platformW.audit_manager.audit_events ++ [ev] ∧
      ev.event_type = AuditEventType.consent_created :=
  ⟨rfl, rfl, by decide,
    (c6_accept_offer_audit_amended sha0 platformW 5 "offer_1" "did:pat" "pa" "ra" freshW
      offerW rfl rfl (by decide)).2⟩

/-- C10: the CONSENT_CREATED audit event appended by a successful
`accept_offer` carries only the metadata keys offerId, transactionId and
escrowId, so the compliance rule (which requires purpose, dataTypes,
retentionPeriod and recipient) marks it NON_COMPLIANT. -/
theorem c10_consent_event_noncompliant (sha : String → String) (p : SportiQuePlatform)
    (now : Nat) (offer_id patient_did pa ra : String) (fresh : AcceptFresh) (o : DataOffer)
    (ho : dictLookup p.offers offer_id = some o) (hs : o.status = OfferStatus.pending)
    (hv : now ≤ o.valid_until) :
    ∃ ev,
      (accept_offer sha p now offer_id patient_did pa ra fresh).2.audit_manager.audit_events =
        p.audit_manager.audit_events ++ [ev] ∧
      ev.event_type = AuditEventType.consent_created ∧
      ev.metadata.map Prod.fst = ["offerId", "transactionId", "escrowId"] ∧
      ev.compliance_status = some "NON_COMPLIANT" := by
  have h1 : ¬ o.status ≠ OfferStatus.pending := by simp [hs]
  have h2 : ¬ now > o.valid_until := by omega
  simp only [accept_offer, ho, h1, h2, if_false, record_audit_event]
  refine ⟨_, rfl, rfl, rfl, ?_⟩
  simp [check_compliance, requiredConsentFields]

/-- Witness for C10 at the sample platform. -/
theorem c10_witness :
    dictLookup platformW.offers "offer_1" = some offerW ∧
    offerW.status = OfferStatus.pending ∧ (5 : Nat) ≤ offerW.valid_until ∧
    ∃ ev,
      (accept_offer sha0 platformW 5 "offer_1" "did:pat" "pa" "ra"
        freshW).2.audit_manager.audit_events =
        platformW.audit_manager.audit_events ++ [ev] ∧
      ev.event_type = AuditEventType.consent_created ∧
      ev.metadata.map Prod.fst = ["offerId", "transactionId", "escrowId"] ∧
      ev.compliance_status = some "NON_COMPLIANT" :=
  ⟨rfl, rfl, by decide,
    c10_consent_event_noncompliant sha0 platformW 5 "offer_1" "did:pat" "pa" "ra" freshW
      offerW rfl rfl (by decide)⟩

/-- Sample escrow in state CREATED, expired at time 200 (counterexample data). -/
def escrowD : EscrowContract :=
  { escrow_id := "escrow_d", payer := "ra", payee := "pa", amount := 50, consent_id := "c1",
    data_condition := condW, created_at := 0, expires_at := 100, status := .created }

/-- Sample transaction bound to `escrowD` (counterexample data). -/
def txnD : DataTransaction :=
  { transaction_id := "tx_d", offer_id := "offer_1", patient_did := "did:pat",
    consent_id := "c1", escrow_id := "escrow_d", bundle_id := "b1", bundle_hash := "BH",
    status := "CONSENT_GIVEN", created_at := 0 }

/-- Sample platform holding `txnD` and `escrowD` (counterexample data). -/
def platformD : SportiQuePlatform :=
  { platform_did := "did:platform"
    consent_manager := { platform_did := "did:platform", private_key := "KEY" }
    escrow_manager := { testnet := true, active_escrows := [("escrow_d", escrowD)] }
    audit_manager := { platform_did := "did:platform" }
    offers := []
    transactions := [("tx_d", txnD)] }

/-- C7 counterexample: `complete_data_delivery` on an expired escrow fails, yet
the stored escrow has moved from CREATED to EXPIRED with a fresh sequence (the
lock step ran and its result was discarded) and no audit event was appended,
where the claim demands an unchanged escrow state plus a failure audit event. -/
theorem c7_counterexample :
    (complete_data_delivery sha0 platformD 200 "tx_d" 9 "a1" "a2").1 =
      Except.error "Failed to fulfill escrow" ∧
    dictLookup (complete_data_delivery sha0 platformD 200 "tx_d" 9 "a1"
        "a2").2.escrow_manager.active_escrows "escrow_d" =
      some { escrowD with status := EscrowStatus.expired, xrpl_sequence := some 9 } ∧
    (complete_data_delivery sha0 platformD 200 "tx_d" 9 "a1" "a2").2.audit_manager =
      platformD.audit_manager := by
  exact ⟨rfl, rfl, rfl⟩

/-- C7 amended: when the fulfill step fails on an expired escrow,
`complete_data_delivery` raises and leaves the transaction record and the
audit chain untouched, but the escrow state does advance: the ignored lock
step has set it LOCKED with the new sequence and the fulfill step then marked
it EXPIRED, and no audit event describes the failure. -/
theorem c7_delivery_failure_amended (sha : String → String) (p : SportiQuePlatform)
    (now : Nat) (tid : String) (seq : Nat) (aud1 aud2 : String) (txn : DataTransaction)
    (e : EscrowContract)
    (htx : dictLookup p.transactions tid = some txn)
    (he : dictLookup p.escrow_manager.active_escrows txn.escrow_id = some e)
    (hexp : now > e.expires_at) :
    (complete_data_delivery sha p now tid seq aud1 aud2).1 =
      Except.error "Failed to fulfill escrow" ∧
    (complete_data_delivery sha p now tid seq aud1 aud2).2.transactions = p.transactions ∧
    (complete_data_delivery sha p now tid seq aud1 aud2).2.audit_manager = p.audit_manager ∧
    dictLookup (complete_data_delivery sha p now tid seq aud1
        aud2).2.escrow_manager.active_escrows txn.escrow_id =
      some { e with status := EscrowStatus.expired, xrpl_sequence := some seq } := by
  have hns : ¬ now ≤ e.expires_at := by omega
  simp only [complete_data_delivery, htx, lock_escrow_funds, he, log_escrow_action,
    fulfill_escrow, dictLookup_insert_self]
  simp [hexp, dictLookup_insert_self]

/-- Witness for C7 (amended) at the sample expired escrow. -/
theorem c7_witness :
    dictLookup platformD.transactions "tx_d" = some txnD ∧
    dictLookup platformD.escrow_manager.active_escrows txnD.escrow_id = some escrowD ∧
    200 > escrowD.expires_at ∧
    (complete_data_delivery sha0 platformD 200 "tx_d" 9 "a1" "a2").1 =
      Except.error "Failed to fulfill escrow" :=
  ⟨rfl, rfl, by decide,
    (c7_delivery_failure_amended sha0 platformD 200 "tx_d" 9 "a1" "a2" txnD escrowD rfl rfl
      (by decide)).1⟩

end Sportique
